import Mathlib

/-!
Verification of `odak/learn/tools/transformation.py`.

The module is embedded shallowly over the reals: a point is a function
`Fin 3 → ℝ`, a rotation matrix is a Mathlib `Matrix (Fin 3) (Fin 3) ℝ`,
a batch of points is a `List` of points, and the rotation mode is the
`String` the Python functions compare against.  `torch.mm` of a matrix
with a column vector (or with the transpose of a stacked point matrix,
row by row) is `Matrix.mulVec`.  A Python call that raises (the unmatched
`mode` branch leaves `result` unbound, so the subsequent `result += origin`
raises) is modelled by `none`.  `rotate_points` performs the in-place
update `points -= torch.tensor(origin)` on the caller's tensor, so its
embedding returns, next to the (optional) result, the value held by the
caller's `points` argument after the call.
-/

/-- A 3D point, as in the Python module an ordered triple of reals. -/
abbrev Vec3 := Fin 3 → ℝ

/-- A 3x3 real matrix, the type of the axis rotation matrices. -/
abbrev Mat3 := Matrix (Fin 3) (Fin 3) ℝ

/-- `torch.deg2rad`: degrees to radians, multiplication by pi / 180. -/
noncomputable def deg2rad (angle : ℝ) : ℝ := angle * (Real.pi / 180)

/-- `torch.rad2deg`: radians to degrees, multiplication by 180 / pi. -/
noncomputable def rad2deg (x : ℝ) : ℝ := x * (180 / Real.pi)

/-- `torch.atan2 y x`: the two-argument arctangent, which is exactly the
complex argument of `x + y i` (in particular `atan2 0 0 = 0`). -/
noncomputable def atan2 (y x : ℝ) : ℝ := Complex.arg ⟨x, y⟩

/-- `rotmatx(angle)`: rotation matrix along the X axis; the angle is in
degrees and converted by `torch.deg2rad` before `cos`/`sin` are taken. -/
noncomputable def rotmatx (angle : ℝ) : Mat3 :=
  let a := deg2rad angle
  !![1, 0, 0;
     0, Real.cos a, -Real.sin a;
     0, Real.sin a, Real.cos a]

/-- `rotmaty(angle)`: rotation matrix along the Y axis. -/
noncomputable def rotmaty (angle : ℝ) : Mat3 :=
  let a := deg2rad angle
  !![Real.cos a, 0, Real.sin a;
     0, 1, 0;
     -Real.sin a, 0, Real.cos a]

/-- `rotmatz(angle)`: rotation matrix along the Z axis. -/
noncomputable def rotmatz (angle : ℝ) : Mat3 :=
  let a := deg2rad angle
  !![Real.cos a, -Real.sin a, 0;
     Real.sin a, Real.cos a, 0;
     0, 0, 1]

/-- The five mode strings matched by the `if`/`elif` chains of
`rotate_point` and `rotate_points`. -/
def validModes : List String := ["XYZ", "XZY", "YXZ", "ZXY", "ZYX"]

/-- `rotate_point(point, angles, mode, origin, offset)`.  The source
subtracts `origin` from the point, builds the three axis matrices from
`angles`, composes them on the translated point in the order selected by
`mode`, then adds `origin` and `offset` back and returns the result
together with the three matrices.  An unmatched `mode` leaves `result`
unbound and the call raises: modelled by `none`. -/
noncomputable def rotate_point (point : Vec3) (angles : Vec3) (mode : String)
    (origin : Vec3) (offset : Vec3) : Option (Vec3 × Mat3 × Mat3 × Mat3) :=
  let p := point - origin
  let rotx := rotmatx (angles 0)
  let roty := rotmaty (angles 1)
  let rotz := rotmatz (angles 2)
  let result : Option Vec3 :=
    if mode = "XYZ" then some (rotz.mulVec (roty.mulVec (rotx.mulVec p)))
    else if mode = "XZY" then some (roty.mulVec (rotz.mulVec (rotx.mulVec p)))
    else if mode = "YXZ" then some (rotz.mulVec (rotx.mulVec (roty.mulVec p)))
    else if mode = "ZXY" then some (roty.mulVec (rotx.mulVec (rotz.mulVec p)))
    else if mode = "ZYX" then some (rotx.mulVec (roty.mulVec (rotz.mulVec p)))
    else none
  result.map (fun r => (r + origin + offset, rotx, roty, rotz))

/-- `rotate_points(points, angles, mode, origin, offset)`.  If all three
angle components are zero the source returns `torch.tensor(offset) + points`
at once.  Otherwise it runs `points -= torch.tensor(origin)` (an in-place
update of the caller's tensor), builds the three matrices, applies the
per-mode composition to every row via `torch.mm(. , points.T).T`, and adds
`origin` and `offset` back.  The first component of the returned pair is
the result (`none` on an unmatched mode, where the `result += ...` line
raises); the second component is the value held by the caller's `points`
argument after the call. -/
noncomputable def rotate_points (points : List Vec3) (angles : Vec3)
    (mode : String) (origin : Vec3) (offset : Vec3) :
    Option (List Vec3) × List Vec3 :=
  if angles 0 = 0 ∧ angles 1 = 0 ∧ angles 2 = 0 then
    (some (points.map (fun p => offset + p)), points)
  else
    let pts := points.map (fun p => p - origin)
    let rotx := rotmatx (angles 0)
    let roty := rotmaty (angles 1)
    let rotz := rotmatz (angles 2)
    let result : Option (List Vec3) :=
      if mode = "XYZ" then
        some (pts.map (fun p => rotz.mulVec (roty.mulVec (rotx.mulVec p))))
      else if mode = "XZY" then
        some (pts.map (fun p => roty.mulVec (rotz.mulVec (rotx.mulVec p))))
      else if mode = "YXZ" then
        some (pts.map (fun p => rotz.mulVec (rotx.mulVec (roty.mulVec p))))
      else if mode = "ZXY" then
        some (pts.map (fun p => roty.mulVec (rotx.mulVec (rotz.mulVec p))))
      else if mode = "ZYX" then
        some (pts.map (fun p => rotx.mulVec (roty.mulVec (rotz.mulVec p))))
      else none
    (result.map (List.map (fun r => r + origin + offset)), pts)

/-- `tilt_towards(location, lookat)`: displacement `location - lookat`,
its Euclidean length, azimuth `atan2 dy dx`, polar angle
`arccos (dz / dist)`; returns `[0, degrees theta, degrees phi]`. -/
noncomputable def tilt_towards (location lookat : Vec3) : Vec3 :=
  let dx := location 0 - lookat 0
  let dy := location 1 - lookat 1
  let dz := location 2 - lookat 2
  let dist := Real.sqrt (dx ^ 2 + dy ^ 2 + dz ^ 2)
  let phi := atan2 dy dx
  let theta := Real.arccos (dz / dist)
  ![0, rad2deg theta, rad2deg phi]

lemma transpose_fin_three (a b c d e f g h i : ℝ) :
    (!![a, b, c; d, e, f; g, h, i] : Mat3).transpose =
      !![a, d, g; b, e, h; c, f, i] := by
  ext p q
  fin_cases p <;> fin_cases q <;> rfl

lemma deg2rad_zero : deg2rad 0 = 0 := by simp [deg2rad]

lemma rotmatx_zero : rotmatx 0 = 1 := by
  simp [rotmatx, deg2rad_zero, Matrix.one_fin_three]

lemma rotmaty_zero : rotmaty 0 = 1 := by
  simp [rotmaty, deg2rad_zero, Matrix.one_fin_three]

lemma rotmatz_zero : rotmatz 0 = 1 := by
  simp [rotmatz, deg2rad_zero, Matrix.one_fin_three]

/-- C9: `rotmatx 0`, `rotmaty 0` and `rotmatz 0` each equal the 3x3
identity matrix. -/
theorem rotmat_zero_eq_identity :
    rotmatx 0 = 1 ∧ rotmaty 0 = 1 ∧ rotmatz 0 = 1 :=
  ⟨rotmatx_zero, rotmaty_zero, rotmatz_zero⟩

/-- C8: for every angle, each of the three axis rotation matrices is
orthogonal (its transpose times itself is the identity) and has
determinant 1. -/
theorem rotmat_orthogonal (θ : ℝ) :
    ((rotmatx θ).transpose * rotmatx θ = 1 ∧ (rotmatx θ).det = 1) ∧
    ((rotmaty θ).transpose * rotmaty θ = 1 ∧ (rotmaty θ).det = 1) ∧
    ((rotmatz θ).transpose * rotmatz θ = 1 ∧ (rotmatz θ).det = 1) := by
  have hsc : Real.sin (deg2rad θ) ^ 2 + Real.cos (deg2rad θ) ^ 2 = 1 :=
    Real.sin_sq_add_cos_sq (deg2rad θ)
  refine ⟨⟨?_, ?_⟩, ⟨?_, ?_⟩, ⟨?_, ?_⟩⟩
  · simp only [rotmatx]
    rw [transpose_fin_three, Matrix.mul_fin_three, Matrix.one_fin_three]
    ext p q
    fin_cases p <;> fin_cases q <;> simp [Matrix.vecHead, Matrix.vecTail] <;> nlinarith [hsc]
  · simp [rotmatx, Matrix.det_fin_three]
    nlinarith [hsc]
  · simp only [rotmaty]
    rw [transpose_fin_three, Matrix.mul_fin_three, Matrix.one_fin_three]
    ext p q
    fin_cases p <;> fin_cases q <;> simp [Matrix.vecHead, Matrix.vecTail] <;> nlinarith [hsc]
  · simp [rotmaty, Matrix.det_fin_three]
    nlinarith [hsc]
  · simp only [rotmatz]
    rw [transpose_fin_three, Matrix.mul_fin_three, Matrix.one_fin_three]
    ext p q
    fin_cases p <;> fin_cases q <;> simp [Matrix.vecHead, Matrix.vecTail] <;> nlinarith [hsc]
  · simp [rotmatz, Matrix.det_fin_three]
    nlinarith [hsc]

lemma rotate_points_snd_of_ne (points : List Vec3) (a : Vec3) (mode : String)
    (origin offset : Vec3) (h : ¬(a 0 = 0 ∧ a 1 = 0 ∧ a 2 = 0)) :
    (rotate_points points a mode origin offset).2 =
      points.map (fun p => p - origin) := by
  simp only [rotate_points]
  rw [if_neg h]

/-- C1: with all three angle components exactly zero, `rotate_points`
returns `points + offset` (and leaves the caller's points untouched),
independently of `mode` and `origin`. -/
theorem rotate_points_zero_angles (points : List Vec3) (mode : String)
    (origin offset : Vec3) :
    rotate_points points ![0, 0, 0] mode origin offset =
      (some (points.map (fun p => p + offset)), points) := by
  have h : (![0, 0, 0] : Vec3) 0 = 0 ∧ (![0, 0, 0] : Vec3) 1 = 0 ∧
      (![0, 0, 0] : Vec3) 2 = 0 := by simp
  simp only [rotate_points]
  rw [if_pos h]
  have hco : (fun p : Vec3 => offset + p) = fun p : Vec3 => p + offset :=
    funext fun p => add_comm _ _
  rw [hco]

/-- C2: for each of the five supported modes, `rotate_point` composes the
three axis matrices on the origin-translated point with the axis named
first in the mode applied innermost, then adds origin and offset back. -/
theorem rotate_point_mode_order (p a origin offset : Vec3) :
    rotate_point p a "XYZ" origin offset =
      some ((rotmatz (a 2)).mulVec ((rotmaty (a 1)).mulVec
          ((rotmatx (a 0)).mulVec (p - origin))) + origin + offset,
        rotmatx (a 0), rotmaty (a 1), rotmatz (a 2)) ∧
    rotate_point p a "XZY" origin offset =
      some ((rotmaty (a 1)).mulVec ((rotmatz (a 2)).mulVec
          ((rotmatx (a 0)).mulVec (p - origin))) + origin + offset,
        rotmatx (a 0), rotmaty (a 1), rotmatz (a 2)) ∧
    rotate_point p a "YXZ" origin offset =
      some ((rotmatz (a 2)).mulVec ((rotmatx (a 0)).mulVec
          ((rotmaty (a 1)).mulVec (p - origin))) + origin + offset,
        rotmatx (a 0), rotmaty (a 1), rotmatz (a 2)) ∧
    rotate_point p a "ZXY" origin offset =
      some ((rotmaty (a 1)).mulVec ((rotmatx (a 0)).mulVec
          ((rotmatz (a 2)).mulVec (p - origin))) + origin + offset,
        rotmatx (a 0), rotmaty (a 1), rotmatz (a 2)) ∧
    rotate_point p a "ZYX" origin offset =
      some ((rotmatx (a 0)).mulVec ((rotmaty (a 1)).mulVec
          ((rotmatz (a 2)).mulVec (p - origin))) + origin + offset,
        rotmatx (a 0), rotmaty (a 1), rotmatz (a 2)) := by
  refine ⟨?_, ?_, ?_, ?_, ?_⟩ <;> rfl

/-- C6: with all three angles zero and any supported mode, the rotated
point returned by `rotate_point` is `p + offset`, whatever the origin. -/
theorem rotate_point_zero_angles (p : Vec3) (mode : String)
    (origin offset : Vec3) (h : mode ∈ validModes) :
    (rotate_point p ![0, 0, 0] mode origin offset).map Prod.fst =
      some (p + offset) := by
  fin_cases h <;>
    simp [rotate_point, rotmatx_zero, rotmaty_zero, rotmatz_zero,
      Matrix.one_mulVec, sub_add_cancel]

/-- C6 witness at `p = (1,2,3)`, mode XYZ, `origin = (4,5,6)`,
`offset = (7,8,9)`. -/
theorem rotate_point_zero_angles_witness :
    ("XYZ" ∈ validModes) ∧
    (rotate_point ![1, 2, 3] ![0, 0, 0] "XYZ" ![4, 5, 6] ![7, 8, 9]).map
        Prod.fst =
      some (![1, 2, 3] + ![7, 8, 9]) := by
  have hm : "XYZ" ∈ validModes := by decide
  exact ⟨hm, rotate_point_zero_angles _ _ _ _ hm⟩

/-- C10: whenever `rotate_point` returns, the three matrices it returns
are `rotmatx (angles 0)`, `rotmaty (angles 1)` and `rotmatz (angles 2)`,
independent of mode, point, origin and offset. -/
theorem rotate_point_matrices_from_angles (p a : Vec3) (mode : String)
    (origin offset : Vec3)
    (h : (rotate_point p a mode origin offset).isSome = true) :
    (rotate_point p a mode origin offset).map
        (fun t => (t.2.1, t.2.2.1, t.2.2.2)) =
      some (rotmatx (a 0), rotmaty (a 1), rotmatz (a 2)) := by
  by_cases h1 : mode = "XYZ"
  · simp [rotate_point, h1]
  by_cases h2 : mode = "XZY"
  · simp [rotate_point, h1, h2]
  by_cases h3 : mode = "YXZ"
  · simp [rotate_point, h1, h2, h3]
  by_cases h4 : mode = "ZXY"
  · simp [rotate_point, h1, h2, h3, h4]
  by_cases h5 : mode = "ZYX"
  · simp [rotate_point, h1, h2, h3, h4, h5]
  · exfalso
    simp [rotate_point, h1, h2, h3, h4, h5] at h

/-- C10 witness at angles `(10,20,30)` and mode XYZ. -/
theorem rotate_point_matrices_from_angles_witness :
    (rotate_point ![1, 0, 0] ![10, 20, 30] "XYZ" ![0, 0, 0]
        ![0, 0, 0]).isSome = true ∧
    (rotate_point ![1, 0, 0] ![10, 20, 30] "XYZ" ![0, 0, 0] ![0, 0, 0]).map
        (fun t => (t.2.1, t.2.2.1, t.2.2.2)) =
      some (rotmatx ((![10, 20, 30] : Vec3) 0),
        rotmaty ((![10, 20, 30] : Vec3) 1),
        rotmatz ((![10, 20, 30] : Vec3) 2)) := by
  have hs : (rotate_point ![1, 0, 0] ![10, 20, 30] "XYZ" ![0, 0, 0]
      ![0, 0, 0]).isSome = true := by
    simp [rotate_point]
  exact ⟨hs, rotate_point_matrices_from_angles _ _ _ _ _ hs⟩

/-- C4: a mode outside the five-string enumeration makes `rotate_point`
fail (the unmatched branch raises, modelled by `none`), and likewise
`rotate_points` whenever the angles are not all zero. -/
theorem invalid_mode_errors (mode : String) (hm : mode ∉ validModes) :
    (∀ p a origin offset : Vec3,
      rotate_point p a mode origin offset = none) ∧
    (∀ (points : List Vec3) (a origin offset : Vec3),
      ¬(a 0 = 0 ∧ a 1 = 0 ∧ a 2 = 0) →
      (rotate_points points a mode origin offset).1 = none) := by
  simp only [validModes, List.mem_cons, List.not_mem_nil, or_false,
    not_or] at hm
  obtain ⟨h1, h2, h3, h4, h5⟩ := hm
  constructor
  · intro p a origin offset
    simp [rotate_point, h1, h2, h3, h4, h5]
  · intro points a origin offset ha
    simp only [rotate_points]
    rw [if_neg ha]
    simp [h1, h2, h3, h4, h5]

/-- C4 witness at mode `"ABC"` with angles `(1,2,3)`. -/
theorem invalid_mode_errors_witness :
    ("ABC" ∉ validModes) ∧
    rotate_point ![1, 0, 0] ![1, 2, 3] "ABC" ![0, 0, 0] ![0, 0, 0] = none ∧
    ¬((![1, 2, 3] : Vec3) 0 = 0 ∧ (![1, 2, 3] : Vec3) 1 = 0 ∧
        (![1, 2, 3] : Vec3) 2 = 0) ∧
    (rotate_points [![1, 0, 0]] ![1, 2, 3] "ABC" ![0, 0, 0] ![0, 0, 0]).1 =
      none := by
  have hm : "ABC" ∉ validModes := by decide
  have ha : ¬((![1, 2, 3] : Vec3) 0 = 0 ∧ (![1, 2, 3] : Vec3) 1 = 0 ∧
      (![1, 2, 3] : Vec3) 2 = 0) := by norm_num
  exact ⟨hm, (invalid_mode_errors _ hm).1 _ _ _ _, ha,
    (invalid_mode_errors _ hm).2 _ _ _ _ ha⟩

/-- C7: on a one-point batch with a supported mode, the result of
`rotate_points` is exactly the singleton list holding the rotated point
returned by `rotate_point` with the same parameters. -/
theorem rotate_point_rotate_points_agree (p a : Vec3) (mode : String)
    (origin offset : Vec3) (h : mode ∈ validModes) :
    (rotate_points [p] a mode origin offset).1 =
      (rotate_point p a mode origin offset).map (fun t => [t.1]) := by
  by_cases hz : a 0 = 0 ∧ a 1 = 0 ∧ a 2 = 0
  · obtain ⟨h0, h1, h2⟩ := hz
    fin_cases h <;>
      simp [rotate_points, rotate_point, h0, h1, h2, rotmatx_zero,
        rotmaty_zero, rotmatz_zero, Matrix.one_mulVec, sub_add_cancel,
        add_comm]
  · simp only [rotate_points]
    rw [if_neg hz]
    fin_cases h <;> simp [rotate_point]

/-- C7 witness at a concrete point, angles, mode, origin and offset. -/
theorem rotate_point_rotate_points_agree_witness :
    ("ZYX" ∈ validModes) ∧
    (rotate_points [![1, 2, 3]] ![10, 20, 30] "ZYX" ![4, 5, 6]
        ![7, 8, 9]).1 =
      (rotate_point ![1, 2, 3] ![10, 20, 30] "ZYX" ![4, 5, 6] ![7, 8, 9]).map
        (fun t => [t.1]) := by
  have hm : "ZYX" ∈ validModes := by decide
  exact ⟨hm, rotate_point_rotate_points_agree _ _ _ _ _ hm⟩

/-- C5: for distinct `location` and `lookat`, `tilt_towards` returns
`[0, degrees (arccos (dz / dist)), degrees (atan2 dy dx)]` for the
displacement `location - lookat` and its Euclidean length; in particular
the first component is 0. -/
theorem tilt_towards_formula (location lookat : Vec3)
    (h : location ≠ lookat) :
    tilt_towards location lookat =
      ![0,
        rad2deg (Real.arccos ((location 2 - lookat 2) /
          Real.sqrt ((location 0 - lookat 0) ^ 2 +
            (location 1 - lookat 1) ^ 2 + (location 2 - lookat 2) ^ 2))),
        rad2deg (atan2 (location 1 - lookat 1)
          (location 0 - lookat 0))] ∧
    tilt_towards location lookat 0 = 0 :=
  ⟨rfl, rfl⟩

/-- C5 witness at `location = (0,0,1)`, `lookat = (0,0,0)`. -/
theorem tilt_towards_formula_witness :
    ((![0, 0, 1] : Vec3) ≠ ![0, 0, 0]) ∧
    (tilt_towards ![0, 0, 1] ![0, 0, 0] =
      ![0,
        rad2deg (Real.arccos (((![0, 0, 1] : Vec3) 2 -
            (![0, 0, 0] : Vec3) 2) /
          Real.sqrt (((![0, 0, 1] : Vec3) 0 - (![0, 0, 0] : Vec3) 0) ^ 2 +
            ((![0, 0, 1] : Vec3) 1 - (![0, 0, 0] : Vec3) 1) ^ 2 +
            ((![0, 0, 1] : Vec3) 2 - (![0, 0, 0] : Vec3) 2) ^ 2))),
        rad2deg (atan2 ((![0, 0, 1] : Vec3) 1 - (![0, 0, 0] : Vec3) 1)
          ((![0, 0, 1] : Vec3) 0 - (![0, 0, 0] : Vec3) 0))] ∧
      tilt_towards ![0, 0, 1] ![0, 0, 0] 0 = 0) := by
  have hne : (![0, 0, 1] : Vec3) ≠ ![0, 0, 0] := by
    intro hEq
    have h2 := congrFun hEq 2
    simp at h2
  exact ⟨hne, tilt_towards_formula _ _ hne⟩

/-- C3 counterexample: with angles `(90,0,0)` and origin `(1,1,1)`,
after the call the caller's points argument no longer holds the value it
held before the call (the source runs `points -= torch.tensor(origin)`
in place). -/
theorem rotate_points_mutation_counterexample :
    ¬((rotate_points [![1, 2, 3]] ![90, 0, 0] "XYZ" ![1, 1, 1]
        ![0, 0, 0]).2 = [![1, 2, 3]]) := by
  have hc : ¬((![90, 0, 0] : Vec3) 0 = 0 ∧ (![90, 0, 0] : Vec3) 1 = 0 ∧
      (![90, 0, 0] : Vec3) 2 = 0) := by norm_num
  rw [rotate_points_snd_of_ne _ _ _ _ _ hc]
  intro hEq
  simp only [List.map_cons, List.map_nil, List.cons.injEq, and_true] at hEq
  have h0 := congrFun hEq 0
  simp [Pi.sub_apply] at h0

/-- C3 amended: the caller's points argument is unchanged by
`rotate_points` when all three angles are zero, and otherwise ends the
call holding `points - origin`, row by row (the other arguments are
plain values the module never writes to). -/
theorem rotate_points_points_after (points : List Vec3) (a : Vec3)
    (mode : String) (origin offset : Vec3) :
    ((a 0 = 0 ∧ a 1 = 0 ∧ a 2 = 0) →
      (rotate_points points a mode origin offset).2 = points) ∧
    (¬(a 0 = 0 ∧ a 1 = 0 ∧ a 2 = 0) →
      (rotate_points points a mode origin offset).2 =
        points.map (fun p => p - origin)) := by
  constructor
  · intro h
    simp only [rotate_points]
    rw [if_pos h]
  · intro h
    exact rotate_points_snd_of_ne _ _ _ _ _ h

/-- C3 amended-claim witness: one zero-angle call and one 90-degree
call, each with its hypothesis discharged concretely. -/
theorem rotate_points_points_after_witness :
    ((![0, 0, 0] : Vec3) 0 = 0 ∧ (![0, 0, 0] : Vec3) 1 = 0 ∧
        (![0, 0, 0] : Vec3) 2 = 0) ∧
    (rotate_points [![1, 2, 3]] ![0, 0, 0] "XYZ" ![1, 1, 1]
        ![0, 0, 0]).2 = [![1, 2, 3]] ∧
    ¬((![90, 0, 0] : Vec3) 0 = 0 ∧ (![90, 0, 0] : Vec3) 1 = 0 ∧
        (![90, 0, 0] : Vec3) 2 = 0) ∧
    (rotate_points [![1, 2, 3]] ![90, 0, 0] "XYZ" ![1, 1, 1]
        ![0, 0, 0]).2 = [![1, 2, 3]].map (fun p => p - ![1, 1, 1]) := by
  have hz : (![0, 0, 0] : Vec3) 0 = 0 ∧ (![0, 0, 0] : Vec3) 1 = 0 ∧
      (![0, 0, 0] : Vec3) 2 = 0 := by simp
  have hnz : ¬((![90, 0, 0] : Vec3) 0 = 0 ∧ (![90, 0, 0] : Vec3) 1 = 0 ∧
      (![90, 0, 0] : Vec3) 2 = 0) := by norm_num
  exact ⟨hz, (rotate_points_points_after _ _ _ _ _).1 hz, hnz,
    (rotate_points_points_after _ _ _ _ _).2 hnz⟩
